import Mathlib

/-!
Shallow embedding of `GPU_Never_sleep.py`: a Vulkan-based GPU keep-alive
script.  Pure computations (`find_memory_type`, device filtering) become Lean
functions; the effectful worker and supervisor become trace-producing
functions over an explicit event type, with external Vulkan data
(queue families, memory-type table, memory requirements) supplied as inputs
and exception injection modelled explicitly.
-/

set_option maxHeartbeats 1000000

/-! ## Vulkan constants (values from the Vulkan 1.0 headers) -/

def VK_QUEUE_GRAPHICS_BIT : Nat := 1

def VK_QUEUE_COMPUTE_BIT : Nat := 2

def VK_MEMORY_PROPERTY_DEVICE_LOCAL_BIT : Nat := 1

def VK_PHYSICAL_DEVICE_TYPE_OTHER : Nat := 0

def VK_PHYSICAL_DEVICE_TYPE_INTEGRATED_GPU : Nat := 1

def VK_PHYSICAL_DEVICE_TYPE_DISCRETE_GPU : Nat := 2

def VK_PHYSICAL_DEVICE_TYPE_VIRTUAL_GPU : Nat := 3

def VK_PHYSICAL_DEVICE_TYPE_CPU : Nat := 4

def VK_BUFFER_USAGE_TRANSFER_DST_BIT : Nat := 2

def VK_BUFFER_USAGE_STORAGE_BUFFER_BIT : Nat := 32

def VK_SHARING_MODE_EXCLUSIVE : Nat := 0

def VK_COMMAND_POOL_CREATE_RESET_COMMAND_BUFFER_BIT : Nat := 2

/-! ## Data model: what the graphics API reports about a physical device -/

structure VkMemoryType where
  propertyFlags : Nat
deriving DecidableEq

structure VkMemoryProperties where
  memoryTypes : List VkMemoryType
deriving DecidableEq

/-- `memoryTypeCount` of `vkGetPhysicalDeviceMemoryProperties`. -/
def VkMemoryProperties.memoryTypeCount (m : VkMemoryProperties) : Nat :=
  m.memoryTypes.length

structure VkQueueFamily where
  queueFlags : Nat
deriving DecidableEq

structure VkDeviceProperties where
  deviceName : String
  deviceType : Nat
deriving DecidableEq

/-- One physical device together with everything the script queries from it:
its static properties, queue-family table, memory-type table, and the
memory requirements Vulkan reports for the script's 1 MiB buffer. -/
structure PhysicalDevice where
  props : VkDeviceProperties
  queueFamilies : List VkQueueFamily
  memProperties : VkMemoryProperties
  memRequirementsSize : Nat
  memRequirementsTypeBits : Nat
deriving DecidableEq

/-! ## `find_memory_type` (lines 44-53) -/

/-- The loop-body condition of `find_memory_type`:
`(type_filter & (1 << i)) and (memoryTypes[i].propertyFlags & properties) == properties`. -/
def memTypeMatches (mem : VkMemoryProperties) (type_filter properties i : Nat) : Bool :=
  (type_filter &&& (1 <<< i) != 0) &&
    (((mem.memoryTypes.getD i ⟨0⟩).propertyFlags &&& properties) == properties)

/-- The `for i in range(memoryTypeCount)` loop, with the remaining iteration
count as structural fuel and `i` the current index. -/
def findMemoryTypeLoop (mem : VkMemoryProperties) (type_filter properties : Nat) :
    Nat → Nat → Option Nat
  | _, 0 => none
  | i, Nat.succ fuel =>
    if memTypeMatches mem type_filter properties i then some i
    else findMemoryTypeLoop mem type_filter properties (i + 1) fuel

/-- `find_memory_type(physical_device, type_filter, properties)`. -/
def find_memory_type (physical_device : PhysicalDevice) (type_filter properties : Nat) :
    Option Nat :=
  findMemoryTypeLoop physical_device.memProperties type_filter properties 0
    physical_device.memProperties.memoryTypeCount

/-! ## `get_all_gpus` (lines 7-42) -/

/-- `props.deviceType in [DISCRETE_GPU, INTEGRATED_GPU, VIRTUAL_GPU]` (lines 34-36). -/
def isGpuDeviceType (t : Nat) : Bool :=
  t == VK_PHYSICAL_DEVICE_TYPE_DISCRETE_GPU ||
  t == VK_PHYSICAL_DEVICE_TYPE_INTEGRATED_GPU ||
  t == VK_PHYSICAL_DEVICE_TYPE_VIRTUAL_GPU

/-- The accumulation loop of `get_all_gpus` (lines 30-37): appends, in
enumeration order, each device whose class is a GPU class. -/
def collectGpus : List PhysicalDevice → List PhysicalDevice
  | [] => []
  | d :: rest =>
    if isGpuDeviceType d.props.deviceType then d :: collectGpus rest
    else collectGpus rest

/-- `get_all_gpus()`.  The outcome of Vulkan instance creation and device
enumeration (the code inside the `try`) is an explicit input: `Except.ok devs`
when the API reports the device list `devs`, `Except.error e` when any API
call raises with message `e`.  Returns the printed lines and the GPU list;
the `except` branch (lines 40-42) prints the error and returns `[]`. -/
def get_all_gpus (vulkanInit : Except String (List PhysicalDevice)) :
    List String × List PhysicalDevice :=
  match vulkanInit with
  | Except.ok devices => ([], collectGpus devices)
  | Except.error e => (["Error initializing Vulkan: " ++ e], [])

/-! ## Per-device worker `keep_single_gpu_alive` (lines 55-181) -/

/-- Worker outcomes, following the spec's per-worker state machine. -/
inductive WorkerState where
  | SkippedNoQueue
  | SkippedNoMemoryType
  | Running
  | Failed
deriving DecidableEq

/-- Observable actions of one worker, in program order: each constructor is
one Vulkan call or `print`/`time.sleep` the worker performs, with the
arguments the script passes. -/
inductive Event where
  | log (msg : String)
  | createDevice (queueFamilyIndex : Nat)
  | getQueue (queueFamilyIndex : Nat)
  | createBuffer (size usage sharingMode : Nat)
  | getMemoryRequirements
  | allocateMemory (size memoryTypeIndex : Nat)
  | bindBufferMemory (offset : Nat)
  | createCommandPool (queueFamilyIndex flags : Nat)
  | allocateCommandBuffers (count : Nat)
  | beginCommandBuffer
  | cmdFillBuffer (offset size pattern : Nat)
  | endCommandBuffer
  | queueSubmit (count : Nat)
  | queueWaitIdle
  | sleep (seconds : Nat)
deriving DecidableEq

/-- The queue-family search of lines 66-70: first index whose `queueFlags`
intersects `VK_QUEUE_COMPUTE_BIT | VK_QUEUE_GRAPHICS_BIT`. -/
def selectQueueFamilyFrom : List VkQueueFamily → Nat → Option Nat
  | [], _ => none
  | f :: rest, i =>
    if f.queueFlags &&& (VK_QUEUE_COMPUTE_BIT ||| VK_QUEUE_GRAPHICS_BIT) != 0 then some i
    else selectQueueFamilyFrom rest (i + 1)

def selectQueueFamily (families : List VkQueueFamily) : Option Nat :=
  selectQueueFamilyFrom families 0

/-- `buffer_size = 1048576` (line 94). -/
def buffer_size : Nat := 1048576

/-- Setup phase of `keep_single_gpu_alive` (lines 59-152): everything before
the `while True` loop.  Returns the state reached and the event trace of the
setup.  The two early `return`s become the two skip states. -/
def keep_single_gpu_alive_setup (dev : PhysicalDevice) (gpu_index : Nat) :
    WorkerState × List Event :=
  match selectQueueFamily dev.queueFamilies with
  | none =>
    (WorkerState.SkippedNoQueue,
     [Event.log ("GPU #" ++ toString gpu_index ++ " (" ++ dev.props.deviceName ++
        ") - No suitable queue found, skipping")])
  | some qfi =>
    let preEvents : List Event :=
      [Event.createDevice qfi, Event.getQueue qfi,
       Event.createBuffer buffer_size
         (VK_BUFFER_USAGE_STORAGE_BUFFER_BIT ||| VK_BUFFER_USAGE_TRANSFER_DST_BIT)
         VK_SHARING_MODE_EXCLUSIVE,
       Event.getMemoryRequirements]
    match find_memory_type dev dev.memRequirementsTypeBits
        VK_MEMORY_PROPERTY_DEVICE_LOCAL_BIT with
    | none =>
      (WorkerState.SkippedNoMemoryType,
       preEvents ++
       [Event.log ("GPU #" ++ toString gpu_index ++ " (" ++ dev.props.deviceName ++
          ") - No suitable VRAM found, skipping")])
    | some mti =>
      (WorkerState.Running,
       preEvents ++
       [Event.allocateMemory dev.memRequirementsSize mti,
        Event.bindBufferMemory 0,
        Event.createCommandPool qfi VK_COMMAND_POOL_CREATE_RESET_COMMAND_BUFFER_BIT,
        Event.allocateCommandBuffers 1,
        Event.log ("GPU #" ++ toString gpu_index ++ " Keep-Alive started: " ++
          dev.props.deviceName),
        Event.log ("GPU #" ++ toString gpu_index ++ " VRAM allocated: 1 MB")])

/-- The `while True` body (lines 155-178), observed for a given number of
iterations: begin, fill the whole buffer with pattern 0, end, submit one
command buffer, wait for queue idle, sleep `interval` seconds. -/
def workerLoop (interval : Nat) : Nat → List Event
  | 0 => []
  | Nat.succ n =>
    Event.beginCommandBuffer ::
    Event.cmdFillBuffer 0 buffer_size 0 ::
    Event.endCommandBuffer ::
    Event.queueSubmit 1 ::
    Event.queueWaitIdle ::
    Event.sleep interval ::
    workerLoop interval n

/-- `keep_single_gpu_alive` without exception injection, observed for
`iterations` loop iterations (the real loop is infinite; `iterations` is how
far the observation extends).  The loop is entered only from the `Running`
setup state; a skip state returns immediately. -/
def keep_single_gpu_alive (dev : PhysicalDevice) (gpu_index interval iterations : Nat) :
    WorkerState × List Event :=
  match keep_single_gpu_alive_setup dev gpu_index with
  | (WorkerState.Running, setupEvents) =>
    (WorkerState.Running, setupEvents ++ workerLoop interval iterations)
  | (st, setupEvents) => (st, setupEvents)

/-- `keep_single_gpu_alive` with an injected exception: the step that would
produce event number `failStep` of the normal trace raises with message
`failMsg` instead.  The surrounding `try/except` (lines 59, 180-181) catches
it, prints `GPU #<i> error: <msg>`, and the worker returns.  If `failStep`
is beyond the observed trace no exception occurs in the observation window. -/
def keep_single_gpu_alive_failing (dev : PhysicalDevice)
    (gpu_index interval iterations failStep : Nat) (failMsg : String) :
    WorkerState × List Event :=
  let normal := keep_single_gpu_alive dev gpu_index interval iterations
  if failStep < normal.2.length then
    (WorkerState.Failed,
     normal.2.take failStep ++
       [Event.log ("GPU #" ++ toString gpu_index ++ " error: " ++ failMsg)])
  else normal

/-! ## Supervisor `keep_all_gpus_alive` (lines 183-239) and entry point -/

/-- The device-class display name mapping (lines 203-207). -/
def deviceTypeName (t : Nat) : String :=
  if t == VK_PHYSICAL_DEVICE_TYPE_DISCRETE_GPU then "Discrete"
  else if t == VK_PHYSICAL_DEVICE_TYPE_INTEGRATED_GPU then "Integrated"
  else if t == VK_PHYSICAL_DEVICE_TYPE_VIRTUAL_GPU then "Virtual"
  else "Unknown"

/-- The thread-spawning loop (lines 217-226): one worker per GPU, indexed in
list order, each passed the shared interval.  Each spawned worker's result is
a function of its own device tuple, index and interval only. -/
def spawnWorkersFrom (interval iterations : Nat) :
    List PhysicalDevice → Nat → List (WorkerState × List Event)
  | [], _ => []
  | d :: rest, i =>
    keep_single_gpu_alive d i interval iterations ::
      spawnWorkersFrom interval iterations rest (i + 1)

/-- Result of one supervisor run: the process exit code (`none` while the
keep-alive wait loop is still running), the console lines printed by the
supervisor itself, and the per-device worker results. -/
structure SupervisorResult where
  exitCode : Option Nat
  log : List String
  workers : List (WorkerState × List Event)
deriving DecidableEq

/-- The inventory line printed for GPU `i` (line 209). -/
def inventoryLine (i : Nat) (dev : PhysicalDevice) : String :=
  "  GPU #" ++ toString i ++ ": " ++ dev.props.deviceName ++ " (" ++
    deviceTypeName dev.props.deviceType ++ ")"

def inventoryLinesFrom : List PhysicalDevice → Nat → List String
  | [], _ => []
  | d :: rest, i => inventoryLine i d :: inventoryLinesFrom rest (i + 1)

/-- `keep_all_gpus_alive(interval)` (lines 183-239), observed for
`iterations` loop iterations per worker.  If no GPUs are found it prints the
failure and calls `sys.exit(1)` before any thread is created; otherwise it
prints the inventory, spawns one worker per GPU and blocks forever
(`exitCode = none`). -/
def keep_all_gpus_alive (vulkanInit : Except String (List PhysicalDevice))
    (interval iterations : Nat) : SupervisorResult :=
  let enumerated := get_all_gpus vulkanInit
  let gpus := enumerated.2
  if gpus.isEmpty then
    { exitCode := some 1,
      log := enumerated.1 ++
        ["No GPU devices found!",
         "Make sure you have:",
         "  1. Vulkan runtime installed (comes with GPU drivers)",
         "  2. PyVulkan installed: pip install vulkan"],
      workers := [] }
  else
    { exitCode := none,
      log := enumerated.1 ++
        ["=== Universal GPU Keep-Alive Script (Vulkan) ===",
         "Found " ++ toString gpus.length ++ " GPU(s):"] ++
        inventoryLinesFrom gpus 0 ++
        ["Running VRAM access operations every " ++ toString interval ++
           " seconds on all GPUs",
         "VRAM allocated per GPU: 1 MB",
         "Keeps both GPU core and VRAM active",
         "Press Ctrl+C to stop"],
      workers := spawnWorkersFrom interval iterations gpus 0 }

/-- The `__main__` block (lines 241-247): prints the banner and calls
`keep_all_gpus_alive(interval=1)` — the polling interval is the only
parameter and is hard-coded to 1 second. -/
def mainEntry (vulkanInit : Except String (List PhysicalDevice)) (iterations : Nat) :
    SupervisorResult :=
  keep_all_gpus_alive vulkanInit 1 iterations

/-! ## Derived observation helpers -/

/-- Number of device-memory allocations (`vkAllocateMemory` calls) in a trace. -/
def countAllocations (events : List Event) : Nat :=
  events.countP (fun e => match e with
    | Event.allocateMemory _ _ => true
    | _ => false)

/-- Whether an event creates or allocates a Vulkan resource
(logical device, buffer, device memory, command pool, command buffers). -/
def isResourceCreation (e : Event) : Bool :=
  match e with
  | Event.createDevice _ => true
  | Event.createBuffer _ _ _ => true
  | Event.allocateMemory _ _ => true
  | Event.createCommandPool _ _ => true
  | Event.allocateCommandBuffers _ => true
  | _ => false

def isSubmitEvent (e : Event) : Bool :=
  match e with
  | Event.queueSubmit _ => true
  | _ => false

/-! ## Concrete devices used in witnesses and counterexamples -/

/-- A device that passes both selections: one compute queue family, one
device-local memory type, requirements exactly 1 MiB. -/
def demoDevice : PhysicalDevice :=
  { props := { deviceName := "DemoGPU", deviceType := VK_PHYSICAL_DEVICE_TYPE_DISCRETE_GPU }
    queueFamilies := [{ queueFlags := VK_QUEUE_COMPUTE_BIT }]
    memProperties := { memoryTypes := [{ propertyFlags := VK_MEMORY_PROPERTY_DEVICE_LOCAL_BIT }] }
    memRequirementsSize := 1048576
    memRequirementsTypeBits := 1 }

/-- A device whose only queue family is transfer-only (flags 4): no
compute/graphics family. -/
def noQueueDevice : PhysicalDevice :=
  { props := { deviceName := "NoQueueGPU", deviceType := VK_PHYSICAL_DEVICE_TYPE_DISCRETE_GPU }
    queueFamilies := [{ queueFlags := 4 }]
    memProperties := { memoryTypes := [{ propertyFlags := VK_MEMORY_PROPERTY_DEVICE_LOCAL_BIT }] }
    memRequirementsSize := 1048576
    memRequirementsTypeBits := 1 }

/-- A device with a compute queue but no device-local memory type. -/
def noMemDevice : PhysicalDevice :=
  { props := { deviceName := "NoMemGPU", deviceType := VK_PHYSICAL_DEVICE_TYPE_INTEGRATED_GPU }
    queueFamilies := [{ queueFlags := VK_QUEUE_COMPUTE_BIT }]
    memProperties := { memoryTypes := [{ propertyFlags := 0 }] }
    memRequirementsSize := 1048576
    memRequirementsTypeBits := 1 }

/-- Like `demoDevice` but Vulkan reports 2 MiB memory requirements for the
1 MiB buffer (legal: requirements may exceed the buffer size). -/
def bigReqDevice : PhysicalDevice :=
  { props := { deviceName := "BigReqGPU", deviceType := VK_PHYSICAL_DEVICE_TYPE_DISCRETE_GPU }
    queueFamilies := [{ queueFlags := VK_QUEUE_COMPUTE_BIT }]
    memProperties := { memoryTypes := [{ propertyFlags := VK_MEMORY_PROPERTY_DEVICE_LOCAL_BIT }] }
    memRequirementsSize := 2097152
    memRequirementsTypeBits := 1 }

/-! ## Lemmas about `find_memory_type` -/

theorem testBit_iff_and_shift (n i : Nat) : n.testBit i = true ↔ n &&& (1 <<< i) ≠ 0 := by
  rw [Nat.one_shiftLeft, Nat.and_two_pow]
  cases h : n.testBit i <;> simp [h]

/-- The spec-level matching condition for memory-type index `i`: bit `i` of
the type filter is set and the type's property flags include all required
property bits. -/
def memTypeMatchesSpec (mem : VkMemoryProperties) (type_filter properties i : Nat) : Prop :=
  type_filter.testBit i = true ∧
    (mem.memoryTypes.getD i ⟨0⟩).propertyFlags &&& properties = properties

instance (mem : VkMemoryProperties) (type_filter properties i : Nat) :
    Decidable (memTypeMatchesSpec mem type_filter properties i) :=
  inferInstanceAs (Decidable (_ ∧ _))

theorem memTypeMatches_iff_spec (mem : VkMemoryProperties) (tf pr i : Nat) :
    memTypeMatches mem tf pr i = true ↔ memTypeMatchesSpec mem tf pr i := by
  unfold memTypeMatches memTypeMatchesSpec
  rw [testBit_iff_and_shift]
  simp [Bool.and_eq_true, bne_iff_ne]

theorem findMemoryTypeLoop_some (mem : VkMemoryProperties) (tf pr : Nat) :
    ∀ (fuel i j : Nat), findMemoryTypeLoop mem tf pr i fuel = some j →
      i ≤ j ∧ j < i + fuel ∧ memTypeMatches mem tf pr j = true ∧
        ∀ k, i ≤ k → k < j → memTypeMatches mem tf pr k = false := by
  intro fuel
  induction fuel with
  | zero => intro i j h; simp [findMemoryTypeLoop] at h
  | succ n ih =>
    intro i j h
    unfold findMemoryTypeLoop at h
    by_cases hm : memTypeMatches mem tf pr i = true
    · simp [hm] at h
      subst h
      exact ⟨Nat.le_refl i, by omega, hm, fun k hk1 hk2 => absurd hk1 (by omega)⟩
    · simp [hm] at h
      obtain ⟨h1, h2, h3, h4⟩ := ih (i + 1) j h
      refine ⟨by omega, by omega, h3, fun k hk1 hk2 => ?_⟩
      by_cases hki : k = i
      · subst hki; exact Bool.not_eq_true _ ▸ hm
      · exact h4 k (by omega) hk2

theorem findMemoryTypeLoop_none (mem : VkMemoryProperties) (tf pr : Nat) :
    ∀ (fuel i : Nat), findMemoryTypeLoop mem tf pr i fuel = none →
      ∀ k, i ≤ k → k < i + fuel → memTypeMatches mem tf pr k = false := by
  intro fuel
  induction fuel with
  | zero => intro i _ k hk1 hk2; omega
  | succ n ih =>
    intro i h k hk1 hk2
    unfold findMemoryTypeLoop at h
    by_cases hm : memTypeMatches mem tf pr i = true
    · simp [hm] at h
    · simp [hm] at h
      by_cases hki : k = i
      · subst hki; exact Bool.not_eq_true _ ▸ hm
      · exact ih (i + 1) h k (by omega) (by omega)

/-- Claim C2 -- For every device, typeFilterBitmask and requiredPropertyFlags,
`find_memory_type` returns the smallest index `i` such that bit `i` is set in
the filter and the memory type's property flags include all required bits
(`some i` exactly when `i` is in range, matches, and no smaller index
matches), and returns `none` exactly when no index in the memory-type table
qualifies.  As a Lean function of the device and the two inputs it is pure by
construction. -/
theorem find_memory_type_least (pd : PhysicalDevice) (tf pr : Nat) :
    (∀ j, find_memory_type pd tf pr = some j ↔
      (j < pd.memProperties.memoryTypeCount ∧ memTypeMatchesSpec pd.memProperties tf pr j ∧
        ∀ k, k < j → ¬ memTypeMatchesSpec pd.memProperties tf pr k)) ∧
    (find_memory_type pd tf pr = none ↔
      ∀ j, j < pd.memProperties.memoryTypeCount → ¬ memTypeMatchesSpec pd.memProperties tf pr j) := by
  constructor
  · intro j
    constructor
    · intro h
      obtain ⟨_, h2, h3, h4⟩ := findMemoryTypeLoop_some pd.memProperties tf pr _ 0 j h
      refine ⟨by omega, (memTypeMatches_iff_spec _ _ _ _).mp h3, fun k hk hspec => ?_⟩
      have := h4 k (Nat.zero_le k) hk
      rw [(memTypeMatches_iff_spec _ _ _ _).symm] at hspec
      simp [this] at hspec
    · rintro ⟨hlt, hmatch, hleast⟩
      cases hfind : find_memory_type pd tf pr with
      | none =>
        have := findMemoryTypeLoop_none pd.memProperties tf pr _ 0 hfind j (Nat.zero_le j)
          (by omega)
        rw [(memTypeMatches_iff_spec _ _ _ _).symm] at hmatch
        simp [this] at hmatch
      | some j2 =>
        obtain ⟨_, h2, h3, h4⟩ := findMemoryTypeLoop_some pd.memProperties tf pr _ 0 j2 hfind
        have hj2 := (memTypeMatches_iff_spec _ _ _ _).mp h3
        have hj2j : ¬ j2 < j := fun hc => hleast j2 hc hj2
        have hjj2 : ¬ j < j2 := by
          intro hc
          have := h4 j (Nat.zero_le j) hc
          rw [(memTypeMatches_iff_spec _ _ _ _).symm] at hmatch
          simp [this] at hmatch
        have : j2 = j := by omega
        rw [this]
  · constructor
    · intro h j hj hspec
      have := findMemoryTypeLoop_none pd.memProperties tf pr _ 0 h j (Nat.zero_le j) (by omega)
      rw [(memTypeMatches_iff_spec _ _ _ _).symm] at hspec
      simp [this] at hspec
    · intro h
      cases hfind : find_memory_type pd tf pr with
      | none => rfl
      | some j =>
        obtain ⟨_, h2, h3, _⟩ := findMemoryTypeLoop_some pd.memProperties tf pr _ 0 j hfind
        exact absurd ((memTypeMatches_iff_spec _ _ _ _).mp h3) (h j (by omega))

/-- Claim C10 -- `find_memory_type` never returns an out-of-bounds index:
any returned index is strictly below the device's `memoryTypeCount`, even
when the type filter has bits set at or beyond that count. -/
theorem find_memory_type_in_bounds (pd : PhysicalDevice) (tf pr i : Nat)
    (h : find_memory_type pd tf pr = some i) :
    i < pd.memProperties.memoryTypeCount := by
  obtain ⟨_, h2, _, _⟩ := findMemoryTypeLoop_some pd.memProperties tf pr _ 0 i h
  omega

/-- Witness for C10: on `demoDevice` with filter 1 and the device-local
requirement, `find_memory_type` returns index 0, which is within the 1-entry
memory-type table. -/
theorem find_memory_type_in_bounds_witness :
    find_memory_type demoDevice 1 VK_MEMORY_PROPERTY_DEVICE_LOCAL_BIT = some 0 ∧
      0 < demoDevice.memProperties.memoryTypeCount :=
  ⟨by decide, find_memory_type_in_bounds demoDevice 1 VK_MEMORY_PROPERTY_DEVICE_LOCAL_BIT 0
    (by decide)⟩

/-! ## Lemmas about `get_all_gpus` -/

theorem collectGpus_eq_filter (devices : List PhysicalDevice) :
    collectGpus devices = devices.filter (fun d => isGpuDeviceType d.props.deviceType) := by
  induction devices with
  | nil => rfl
  | cons d rest ih =>
    unfold collectGpus
    by_cases h : isGpuDeviceType d.props.deviceType = true
    · simp [h, List.filter_cons, ih]
    · simp [Bool.not_eq_true _ ▸ h, List.filter_cons, ih]

theorem isGpuDeviceType_iff (t : Nat) :
    isGpuDeviceType t = true ↔
      (t = VK_PHYSICAL_DEVICE_TYPE_DISCRETE_GPU ∨
       t = VK_PHYSICAL_DEVICE_TYPE_INTEGRATED_GPU ∨
       t = VK_PHYSICAL_DEVICE_TYPE_VIRTUAL_GPU) := by
  simp [isGpuDeviceType, or_assoc]

/-- Claim C5 -- On a successful enumeration reporting `devices`,
`get_all_gpus` returns exactly the devices whose class is discrete,
integrated or virtual GPU (membership characterization; any other class,
e.g. the CPU fallback class, is excluded), and the result is a sublist of
the reported list, hence in the same relative order. -/
theorem get_all_gpus_filters_gpu_classes (devices : List PhysicalDevice) :
    ((get_all_gpus (Except.ok devices)).2 =
      devices.filter (fun d =>
        decide (d.props.deviceType = VK_PHYSICAL_DEVICE_TYPE_DISCRETE_GPU ∨
          d.props.deviceType = VK_PHYSICAL_DEVICE_TYPE_INTEGRATED_GPU ∨
          d.props.deviceType = VK_PHYSICAL_DEVICE_TYPE_VIRTUAL_GPU))) ∧
    List.Sublist (get_all_gpus (Except.ok devices)).2 devices ∧
    (∀ d, d ∈ (get_all_gpus (Except.ok devices)).2 ↔
      (d ∈ devices ∧
        (d.props.deviceType = VK_PHYSICAL_DEVICE_TYPE_DISCRETE_GPU ∨
         d.props.deviceType = VK_PHYSICAL_DEVICE_TYPE_INTEGRATED_GPU ∨
         d.props.deviceType = VK_PHYSICAL_DEVICE_TYPE_VIRTUAL_GPU))) := by
  have hfun : (fun d : PhysicalDevice => isGpuDeviceType d.props.deviceType) =
      (fun d : PhysicalDevice =>
        decide (d.props.deviceType = VK_PHYSICAL_DEVICE_TYPE_DISCRETE_GPU ∨
          d.props.deviceType = VK_PHYSICAL_DEVICE_TYPE_INTEGRATED_GPU ∨
          d.props.deviceType = VK_PHYSICAL_DEVICE_TYPE_VIRTUAL_GPU)) := by
    funext d
    rcases h : isGpuDeviceType d.props.deviceType with _ | _
    · have := (not_iff_not.mpr (isGpuDeviceType_iff d.props.deviceType)).mp (by simp [h])
      simp [this]
    · have := (isGpuDeviceType_iff d.props.deviceType).mp h
      simp [this]
  have heq : (get_all_gpus (Except.ok devices)).2 =
      devices.filter (fun d => isGpuDeviceType d.props.deviceType) := by
    simp [get_all_gpus, collectGpus_eq_filter]
  refine ⟨by rw [heq, hfun], ?_, ?_⟩
  · rw [heq]; exact List.filter_sublist devices
  · intro d
    rw [heq, List.mem_filter, isGpuDeviceType_iff]

/-- Claim C7 -- When Vulkan initialization or device listing fails with any
message `e`, `get_all_gpus` returns the empty device list and reports the
failure on the console; as a total Lean function it returns normally (the
exception is absorbed by the modelled `except` branch, never propagated). -/
theorem get_all_gpus_on_error (e : String) :
    (get_all_gpus (Except.error e)).2 = [] ∧
      (get_all_gpus (Except.error e)).1 = ["Error initializing Vulkan: " ++ e] :=
  ⟨rfl, rfl⟩

/-! ## Lemmas about the worker -/

theorem setup_of_noQueue (dev : PhysicalDevice) (idx : Nat)
    (h : selectQueueFamily dev.queueFamilies = none) :
    keep_single_gpu_alive_setup dev idx =
      (WorkerState.SkippedNoQueue,
       [Event.log ("GPU #" ++ toString idx ++ " (" ++ dev.props.deviceName ++
          ") - No suitable queue found, skipping")]) := by
  simp [keep_single_gpu_alive_setup, h]

theorem setup_of_noMemType (dev : PhysicalDevice) (idx qfi : Nat)
    (hq : selectQueueFamily dev.queueFamilies = some qfi)
    (hm : find_memory_type dev dev.memRequirementsTypeBits
      VK_MEMORY_PROPERTY_DEVICE_LOCAL_BIT = none) :
    keep_single_gpu_alive_setup dev idx =
      (WorkerState.SkippedNoMemoryType,
       [Event.createDevice qfi, Event.getQueue qfi,
        Event.createBuffer buffer_size
          (VK_BUFFER_USAGE_STORAGE_BUFFER_BIT ||| VK_BUFFER_USAGE_TRANSFER_DST_BIT)
          VK_SHARING_MODE_EXCLUSIVE,
        Event.getMemoryRequirements,
        Event.log ("GPU #" ++ toString idx ++ " (" ++ dev.props.deviceName ++
          ") - No suitable VRAM found, skipping")]) := by
  simp [keep_single_gpu_alive_setup, hq, hm]

theorem setup_of_running (dev : PhysicalDevice) (idx qfi mti : Nat)
    (hq : selectQueueFamily dev.queueFamilies = some qfi)
    (hm : find_memory_type dev dev.memRequirementsTypeBits
      VK_MEMORY_PROPERTY_DEVICE_LOCAL_BIT = some mti) :
    keep_single_gpu_alive_setup dev idx =
      (WorkerState.Running,
       [Event.createDevice qfi, Event.getQueue qfi,
        Event.createBuffer buffer_size
          (VK_BUFFER_USAGE_STORAGE_BUFFER_BIT ||| VK_BUFFER_USAGE_TRANSFER_DST_BIT)
          VK_SHARING_MODE_EXCLUSIVE,
        Event.getMemoryRequirements,
        Event.allocateMemory dev.memRequirementsSize mti,
        Event.bindBufferMemory 0,
        Event.createCommandPool qfi VK_COMMAND_POOL_CREATE_RESET_COMMAND_BUFFER_BIT,
        Event.allocateCommandBuffers 1,
        Event.log ("GPU #" ++ toString idx ++ " Keep-Alive started: " ++
          dev.props.deviceName),
        Event.log ("GPU #" ++ toString idx ++ " VRAM allocated: 1 MB")]) := by
  simp [keep_single_gpu_alive_setup, hq, hm]

theorem setup_running_elim (dev : PhysicalDevice) (idx : Nat)
    (h : (keep_single_gpu_alive_setup dev idx).1 = WorkerState.Running) :
    ∃ qfi mti, selectQueueFamily dev.queueFamilies = some qfi ∧
      find_memory_type dev dev.memRequirementsTypeBits
        VK_MEMORY_PROPERTY_DEVICE_LOCAL_BIT = some mti := by
  cases hq : selectQueueFamily dev.queueFamilies with
  | none => rw [setup_of_noQueue dev idx hq] at h; exact absurd h (by simp)
  | some qfi =>
    cases hm : find_memory_type dev dev.memRequirementsTypeBits
        VK_MEMORY_PROPERTY_DEVICE_LOCAL_BIT with
    | none => rw [setup_of_noMemType dev idx qfi hq hm] at h; exact absurd h (by simp)
    | some mti => exact ⟨qfi, mti, rfl, rfl⟩

theorem workerLoop_eq_replicate (interval n : Nat) :
    workerLoop interval n =
      (List.replicate n
        [Event.beginCommandBuffer,
         Event.cmdFillBuffer 0 buffer_size 0,
         Event.endCommandBuffer,
         Event.queueSubmit 1,
         Event.queueWaitIdle,
         Event.sleep interval]).flatten := by
  induction n with
  | zero => rfl
  | succ m ih => simp [workerLoop, List.replicate, ih]

theorem countAllocations_workerLoop (interval n : Nat) :
    countAllocations (workerLoop interval n) = 0 := by
  induction n with
  | zero => rfl
  | succ m ih => simp [workerLoop, countAllocations, List.countP_cons] at ih ⊢; exact ih

theorem workerLoop_no_creation (interval n : Nat) :
    ∀ e ∈ workerLoop interval n, isResourceCreation e = false := by
  induction n with
  | zero => intro e he; simp [workerLoop] at he
  | succ m ih =>
    intro e he
    simp only [workerLoop, List.mem_cons] at he
    rcases he with h | h | h | h | h | h | h
    all_goals first
      | (subst h; rfl)
      | exact ih e h

theorem workerLoop_sleep_eq_interval (interval n : Nat) :
    ∀ e ∈ workerLoop interval n, ∀ s, e = Event.sleep s → s = interval := by
  induction n with
  | zero => intro e he; simp [workerLoop] at he
  | succ m ih =>
    intro e he s hs
    simp only [workerLoop, List.mem_cons] at he
    rcases he with h | h | h | h | h | h | h
    all_goals first
      | (subst h; simp_all)
      | exact ih e h s hs

theorem keep_single_running_eq (dev : PhysicalDevice) (idx interval n : Nat)
    (h : (keep_single_gpu_alive_setup dev idx).1 = WorkerState.Running) :
    keep_single_gpu_alive dev idx interval n =
      (WorkerState.Running,
       (keep_single_gpu_alive_setup dev idx).2 ++ workerLoop interval n) := by
  unfold keep_single_gpu_alive
  cases hs : keep_single_gpu_alive_setup dev idx with
  | mk st tr =>
    rw [hs] at h
    simp at h
    subst h
    simp

theorem keep_single_eq_setup_of_not_running (dev : PhysicalDevice) (idx interval n : Nat)
    (h : (keep_single_gpu_alive_setup dev idx).1 ≠ WorkerState.Running) :
    keep_single_gpu_alive dev idx interval n = keep_single_gpu_alive_setup dev idx := by
  unfold keep_single_gpu_alive
  cases hs : keep_single_gpu_alive_setup dev idx with
  | mk st tr =>
    rw [hs] at h
    cases st <;> simp_all

theorem countAllocations_running_setup (dev : PhysicalDevice) (idx : Nat)
    (h : (keep_single_gpu_alive_setup dev idx).1 = WorkerState.Running) :
    countAllocations (keep_single_gpu_alive_setup dev idx).2 = 1 := by
  obtain ⟨qfi, mti, hq, hm⟩ := setup_running_elim dev idx h
  rw [setup_of_running dev idx qfi mti hq hm]
  simp [countAllocations, List.countP_cons]

theorem spawnWorkersFrom_get (interval iters : Nat) :
    ∀ (gpus : List PhysicalDevice) (base j : Nat),
      (spawnWorkersFrom interval iters gpus base)[j]? =
        gpus[j]?.map (fun d => keep_single_gpu_alive d (base + j) interval iters) := by
  intro gpus
  induction gpus with
  | nil => intro base j; simp [spawnWorkersFrom]
  | cons d rest ih =>
    intro base j
    cases j with
    | zero => simp [spawnWorkersFrom]
    | succ m =>
      have harith : base + 1 + m = base + (m + 1) := by omega
      simp only [spawnWorkersFrom, List.getElem?_cons_succ, ih (base + 1) m, harith]

/-- Claim C1 -- For a worker that reaches `Running`, the observed trace of
`n` loop iterations is exactly `n` repetitions of the sequence
begin-recording, fill of the full 1 MiB buffer range with pattern 0, end
recording, submit, wait for queue idle, sleep `interval` seconds; the loop
performs no resource creation or allocation (the setup objects are reused),
and the `vkAllocateMemory` count of the whole observed trace is exactly 1
for every iteration count `n`. -/
theorem worker_running_loop_shape (dev : PhysicalDevice) (idx interval n : Nat)
    (h : (keep_single_gpu_alive_setup dev idx).1 = WorkerState.Running) :
    (keep_single_gpu_alive dev idx interval n).2 =
      (keep_single_gpu_alive_setup dev idx).2 ++
        (List.replicate n
          [Event.beginCommandBuffer,
           Event.cmdFillBuffer 0 1048576 0,
           Event.endCommandBuffer,
           Event.queueSubmit 1,
           Event.queueWaitIdle,
           Event.sleep interval]).flatten ∧
    countAllocations (keep_single_gpu_alive dev idx interval n).2 = 1 ∧
    (∀ e ∈ workerLoop interval n, isResourceCreation e = false) := by
  rw [keep_single_running_eq dev idx interval n h]
  refine ⟨?_, ?_, workerLoop_no_creation interval n⟩
  · have := workerLoop_eq_replicate interval n
    rw [show (1048576 : Nat) = buffer_size from rfl, ← this]
  · simp only [countAllocations, List.countP_append]
    have h1 := countAllocations_running_setup dev idx h
    have h2 := countAllocations_workerLoop interval n
    simp only [countAllocations] at h1 h2
    omega

/-- Witness for C1: `demoDevice` reaches `Running`; observing 2 iterations,
the worker performed exactly one memory allocation. -/
theorem worker_running_loop_shape_witness :
    (keep_single_gpu_alive_setup demoDevice 0).1 = WorkerState.Running ∧
      countAllocations (keep_single_gpu_alive demoDevice 0 1 2).2 = 1 :=
  ⟨by decide, (worker_running_loop_shape demoDevice 0 1 2 (by decide)).2.1⟩

/-- Claim C3 -- A device with no compute/graphics queue family makes its
worker end in `SkippedNoQueue` with only the skip log line (which names the
device index and name), zero memory allocations and no submission; a device
whose queue selection succeeds but that lacks a device-local memory type
makes its worker end in `SkippedNoMemoryType` with the setup trace only,
zero memory allocations and no submission; and each spawned worker's result
is a function of its own device and index alone, so in either case only that
worker terminates. -/
theorem worker_skip_paths (dev : PhysicalDevice) (idx interval n : Nat) :
    (selectQueueFamily dev.queueFamilies = none →
      (keep_single_gpu_alive dev idx interval n).1 = WorkerState.SkippedNoQueue ∧
      (keep_single_gpu_alive dev idx interval n).2 =
        [Event.log ("GPU #" ++ toString idx ++ " (" ++ dev.props.deviceName ++
          ") - No suitable queue found, skipping")] ∧
      countAllocations (keep_single_gpu_alive dev idx interval n).2 = 0 ∧
      (∀ e ∈ (keep_single_gpu_alive dev idx interval n).2, isSubmitEvent e = false)) ∧
    (∀ qfi, selectQueueFamily dev.queueFamilies = some qfi →
      find_memory_type dev dev.memRequirementsTypeBits
        VK_MEMORY_PROPERTY_DEVICE_LOCAL_BIT = none →
      (keep_single_gpu_alive dev idx interval n).1 = WorkerState.SkippedNoMemoryType ∧
      (keep_single_gpu_alive dev idx interval n).2 = (keep_single_gpu_alive_setup dev idx).2 ∧
      countAllocations (keep_single_gpu_alive dev idx interval n).2 = 0 ∧
      (∀ e ∈ (keep_single_gpu_alive dev idx interval n).2, isSubmitEvent e = false)) ∧
    (∀ (gpus : List PhysicalDevice) (j : Nat) (d : PhysicalDevice), gpus[j]? = some d →
      (spawnWorkersFrom interval n gpus 0)[j]? =
        some (keep_single_gpu_alive d j interval n)) := by
  refine ⟨?_, ?_, ?_⟩
  · intro h
    have hs := setup_of_noQueue dev idx h
    have hne : (keep_single_gpu_alive_setup dev idx).1 ≠ WorkerState.Running := by
      rw [hs]; simp
    rw [keep_single_eq_setup_of_not_running dev idx interval n hne, hs]
    refine ⟨rfl, rfl, by simp [countAllocations], ?_⟩
    intro e he
    simp at he
    subst he
    rfl
  · intro qfi hq hm
    have hs := setup_of_noMemType dev idx qfi hq hm
    have hne : (keep_single_gpu_alive_setup dev idx).1 ≠ WorkerState.Running := by
      rw [hs]; simp
    rw [keep_single_eq_setup_of_not_running dev idx interval n hne, hs]
    refine ⟨rfl, rfl, by simp [countAllocations, List.countP_cons], ?_⟩
    intro e he
    simp at he
    rcases he with h | h | h | h | h
    all_goals (subst h; rfl)
  · intro gpus j d hj
    rw [spawnWorkersFrom_get interval n gpus 0 j, hj]
    simp

/-- Witness for C3: the transfer-only-queue device is skipped with no queue,
the no-device-local-memory device is skipped after queue selection, and in a
two-device spawn the second worker's result is exactly its own standalone
run. -/
theorem worker_skip_paths_witness :
    (keep_single_gpu_alive noQueueDevice 0 1 3).1 = WorkerState.SkippedNoQueue ∧
    (keep_single_gpu_alive noMemDevice 1 1 3).1 = WorkerState.SkippedNoMemoryType ∧
    (spawnWorkersFrom 1 3 [noQueueDevice, demoDevice] 0)[1]? =
      some (keep_single_gpu_alive demoDevice 1 1 3) :=
  ⟨((worker_skip_paths noQueueDevice 0 1 3).1 (by decide)).1,
   ((worker_skip_paths noMemDevice 1 1 3).2.1 0 (by decide) (by decide)).1,
   (worker_skip_paths noQueueDevice 0 1 3).2.2 [noQueueDevice, demoDevice] 1 demoDevice
     (by decide)⟩

/-- Counterexample to C4 as stated: on `bigReqDevice` Vulkan reports 2 MiB
memory requirements for the 1 MiB buffer; the worker reaches `Running` but
allocates a MemoryBlock of 2097152 bytes, so the allocation is not the fixed
size 1048576 the claim asserts. -/
theorem memory_allocation_not_one_mib :
    (keep_single_gpu_alive_setup bigReqDevice 0).1 = WorkerState.Running ∧
    Event.allocateMemory 2097152 0 ∈ (keep_single_gpu_alive_setup bigReqDevice 0).2 ∧
    ¬ (∀ sz mti, Event.allocateMemory sz mti ∈ (keep_single_gpu_alive_setup bigReqDevice 0).2 →
        sz = 1048576) := by
  refine ⟨by decide, by decide, fun hall => ?_⟩
  have := hall 2097152 0 (by decide)
  omega

/-- Claim C4 (amended) -- For every worker passing queue and memory-type
selection: the Buffer is created with size exactly 1048576 bytes, usage
storage plus transfer-destination and exclusive sharing mode; the MemoryBlock
is allocated with the size reported by the buffer's memory requirements (not
necessarily 1 MiB) at the selected index, whose memory type carries the
device-local property flag; and it is bound to the Buffer at offset 0. -/
theorem buffer_and_memory_creation (dev : PhysicalDevice) (idx qfi mti : Nat)
    (hq : selectQueueFamily dev.queueFamilies = some qfi)
    (hm : find_memory_type dev dev.memRequirementsTypeBits
      VK_MEMORY_PROPERTY_DEVICE_LOCAL_BIT = some mti) :
    (keep_single_gpu_alive_setup dev idx).1 = WorkerState.Running ∧
    Event.createBuffer 1048576
      (VK_BUFFER_USAGE_STORAGE_BUFFER_BIT ||| VK_BUFFER_USAGE_TRANSFER_DST_BIT)
      VK_SHARING_MODE_EXCLUSIVE ∈ (keep_single_gpu_alive_setup dev idx).2 ∧
    Event.allocateMemory dev.memRequirementsSize mti ∈
      (keep_single_gpu_alive_setup dev idx).2 ∧
    Event.bindBufferMemory 0 ∈ (keep_single_gpu_alive_setup dev idx).2 ∧
    (dev.memProperties.memoryTypes.getD mti ⟨0⟩).propertyFlags &&&
      VK_MEMORY_PROPERTY_DEVICE_LOCAL_BIT = VK_MEMORY_PROPERTY_DEVICE_LOCAL_BIT := by
  rw [setup_of_running dev idx qfi mti hq hm]
  refine ⟨rfl, by simp [buffer_size], by simp, by simp, ?_⟩
  obtain ⟨_, _, h3, _⟩ := findMemoryTypeLoop_some dev.memProperties
    dev.memRequirementsTypeBits VK_MEMORY_PROPERTY_DEVICE_LOCAL_BIT _ 0 mti hm
  exact ((memTypeMatches_iff_spec _ _ _ _).mp h3).2

/-- Witness for the amended C4: on `bigReqDevice` both selections succeed and
the allocation event carries the reported 2 MiB requirement size. -/
theorem buffer_and_memory_creation_witness :
    Event.allocateMemory 2097152 0 ∈ (keep_single_gpu_alive_setup bigReqDevice 0).2 :=
  (buffer_and_memory_creation bigReqDevice 0 0 0 (by decide) (by decide)).2.2.1

/-- Claim C8 -- An exception injected at any position of the worker's
observed trace is caught at the worker boundary: the worker ends `Failed`,
its trace is the normal prefix before the failure followed by exactly one
error log naming the device index and the failure message, that log is the
last event (nothing runs afterwards, so the worker is not restarted), and
the worker function still returns a value to its caller (the exception does
not propagate). -/
theorem worker_exception_boundary (dev : PhysicalDevice) (idx interval n k : Nat)
    (msg : String) (hk : k < (keep_single_gpu_alive dev idx interval n).2.length) :
    (keep_single_gpu_alive_failing dev idx interval n k msg).1 = WorkerState.Failed ∧
    (keep_single_gpu_alive_failing dev idx interval n k msg).2 =
      (keep_single_gpu_alive dev idx interval n).2.take k ++
        [Event.log ("GPU #" ++ toString idx ++ " error: " ++ msg)] ∧
    (keep_single_gpu_alive_failing dev idx interval n k msg).2.getLast? =
      some (Event.log ("GPU #" ++ toString idx ++ " error: " ++ msg)) ∧
    (keep_single_gpu_alive_failing dev idx interval n k msg).2.length = k + 1 := by
  have hdef : keep_single_gpu_alive_failing dev idx interval n k msg =
      (WorkerState.Failed,
       (keep_single_gpu_alive dev idx interval n).2.take k ++
         [Event.log ("GPU #" ++ toString idx ++ " error: " ++ msg)]) := by
    unfold keep_single_gpu_alive_failing
    simp [hk]
  rw [hdef]
  refine ⟨rfl, rfl, by simp, ?_⟩
  simp [List.length_take]
  omega

/-- Witness for C8: a failure injected at step 2 of the running
`demoDevice` worker yields a `Failed` worker whose trace ends with the
error log. -/
theorem worker_exception_boundary_witness :
    2 < (keep_single_gpu_alive demoDevice 0 1 1).2.length ∧
      (keep_single_gpu_alive_failing demoDevice 0 1 1 2 "device lost").1 =
        WorkerState.Failed :=
  ⟨by decide, (worker_exception_boundary demoDevice 0 1 1 2 "device lost" (by decide)).1⟩

/-- Claim C6 -- Whenever enumeration yields an empty device list, the
supervisor reports the failure and exits with status 1 without spawning any
worker. -/
theorem supervisor_exits_on_no_gpus (vulkanInit : Except String (List PhysicalDevice))
    (interval n : Nat) (h : (get_all_gpus vulkanInit).2 = []) :
    (keep_all_gpus_alive vulkanInit interval n).exitCode = some 1 ∧
    (keep_all_gpus_alive vulkanInit interval n).workers = [] ∧
    "No GPU devices found!" ∈ (keep_all_gpus_alive vulkanInit interval n).log := by
  have h2 : (get_all_gpus vulkanInit).2.isEmpty = true := by rw [h]; rfl
  refine ⟨?_, ?_, ?_⟩ <;> simp [keep_all_gpus_alive, h2]

/-- Witness for C6: a failed Vulkan initialization yields no devices, exit
code 1 and no workers. -/
theorem supervisor_exits_on_no_gpus_witness :
    (get_all_gpus (Except.error "no driver")).2 = [] ∧
      (keep_all_gpus_alive (Except.error "no driver") 1 1).exitCode = some 1 :=
  ⟨by decide, (supervisor_exits_on_no_gpus (Except.error "no driver") 1 1 (by decide)).1⟩

theorem setup_no_sleep (dev : PhysicalDevice) (idx : Nat) :
    ∀ e ∈ (keep_single_gpu_alive_setup dev idx).2, ∀ s, e ≠ Event.sleep s := by
  cases hq : selectQueueFamily dev.queueFamilies with
  | none =>
    rw [setup_of_noQueue dev idx hq]
    intro e he s
    simp at he
    subst he
    simp
  | some qfi =>
    cases hm : find_memory_type dev dev.memRequirementsTypeBits
        VK_MEMORY_PROPERTY_DEVICE_LOCAL_BIT with
    | none =>
      rw [setup_of_noMemType dev idx qfi hq hm]
      intro e he s
      simp at he
      rcases he with h | h | h | h | h <;> (subst h; simp)
    | some mti =>
      rw [setup_of_running dev idx qfi mti hq hm]
      intro e he s
      simp at he
      rcases he with h | h | h | h | h | h | h | h | h | h <;> (subst h; simp)

theorem worker_sleep_eq_interval (dev : PhysicalDevice) (idx interval n : Nat) :
    ∀ e ∈ (keep_single_gpu_alive dev idx interval n).2,
      ∀ s, e = Event.sleep s → s = interval := by
  by_cases h : (keep_single_gpu_alive_setup dev idx).1 = WorkerState.Running
  · rw [keep_single_running_eq dev idx interval n h]
    intro e he s hs
    simp only [List.mem_append] at he
    rcases he with he | he
    · exact absurd hs (setup_no_sleep dev idx e he s)
    · exact workerLoop_sleep_eq_interval interval n e he s hs
  · rw [keep_single_eq_setup_of_not_running dev idx interval n h]
    intro e he s hs
    exact absurd hs (setup_no_sleep dev idx e he s)

theorem spawn_mem_shape (interval iters : Nat) :
    ∀ (gpus : List PhysicalDevice) (base : Nat) (w : WorkerState × List Event),
      w ∈ spawnWorkersFrom interval iters gpus base →
        ∃ d i, w = keep_single_gpu_alive d i interval iters := by
  intro gpus
  induction gpus with
  | nil => intro base w hw; simp [spawnWorkersFrom] at hw
  | cons d rest ih =>
    intro base w hw
    simp only [spawnWorkersFrom, List.mem_cons] at hw
    rcases hw with h | h
    · exact ⟨d, base, h⟩
    · exact ih (base + 1) w h

/-- Claim C9 -- The process entry point invokes the supervisor with the
polling interval as its only varying argument, hard-coded to 1 second; as a
consequence every sleep any spawned worker ever performs lasts exactly
1 second.  (The `iterations` argument is only the observation horizon of the
infinite loop, not a program parameter.) -/
theorem main_entry_interval_one (vulkanInit : Except String (List PhysicalDevice))
    (n : Nat) :
    mainEntry vulkanInit n = keep_all_gpus_alive vulkanInit 1 n ∧
    (∀ w ∈ (mainEntry vulkanInit n).workers, ∀ e ∈ w.2,
      ∀ s, e = Event.sleep s → s = 1) := by
  refine ⟨rfl, ?_⟩
  intro w hw e he s hs
  by_cases hg : (get_all_gpus vulkanInit).2.isEmpty = true
  · simp [mainEntry, keep_all_gpus_alive, hg] at hw
  · have hw2 : w ∈ spawnWorkersFrom 1 n (get_all_gpus vulkanInit).2 0 := by
      simpa [mainEntry, keep_all_gpus_alive, hg] using hw
    obtain ⟨d, i, rfl⟩ := spawn_mem_shape 1 n (get_all_gpus vulkanInit).2 0 w hw2
    exact worker_sleep_eq_interval d i 1 n e he s hs

/-- Witness for C9: with one demo GPU the spawned worker is in the entry
point's worker list, performs a sleep event, and that sleep is 1 second. -/
theorem main_entry_interval_one_witness :
    keep_single_gpu_alive demoDevice 0 1 1 ∈ (mainEntry (Except.ok [demoDevice]) 1).workers ∧
      Event.sleep 1 ∈ (keep_single_gpu_alive demoDevice 0 1 1).2 ∧ (1 : Nat) = 1 :=
  ⟨by decide, by decide,
   (main_entry_interval_one (Except.ok [demoDevice]) 1).2
     (keep_single_gpu_alive demoDevice 0 1 1) (by decide) (Event.sleep 1) (by decide) 1 rfl⟩

/-- Witness for C2: on `demoDevice` with filter 1 and the device-local
requirement, the characterization yields `some 0` (index 0 matches and no
smaller index exists). -/
theorem find_memory_type_least_witness :
    find_memory_type demoDevice 1 VK_MEMORY_PROPERTY_DEVICE_LOCAL_BIT = some 0 :=
  ((find_memory_type_least demoDevice 1 VK_MEMORY_PROPERTY_DEVICE_LOCAL_BIT).1 0).mpr
    ⟨by decide, by decide, fun k hk => absurd hk (by omega)⟩

/-- Witness for C5: a discrete-GPU device is kept by the enumeration filter. -/
theorem get_all_gpus_filters_witness :
    demoDevice ∈ (get_all_gpus (Except.ok [demoDevice])).2 :=
  ((get_all_gpus_filters_gpu_classes [demoDevice]).2.2 demoDevice).mpr
    ⟨by decide, Or.inl (by decide)⟩

/-- Witness for C7: a concrete initialization failure yields the empty
device list. -/
theorem get_all_gpus_on_error_witness :
    (get_all_gpus (Except.error "boom")).2 = [] :=
  (get_all_gpus_on_error "boom").1
